import Mathlib

/-
Shallow embedding of the exploration-planner core (site scoring engine,
robot-site compatibility matcher, greedy mission scheduler) over exact
rationals, together with proofs about the spec's claims.

Conventions:
* Python floats are modelled as ℚ (exact arithmetic).
* Python exceptions are modelled by `Except PyErr`.
* Wall-clock datetimes are modelled as rational hours on the planning axis;
  the planning start instant `datetime.now()` is an explicit parameter `t0`.
* The geodesic great-circle distance (geopy) is an uninterpreted parameter
  `dist : ℚ × ℚ → ℚ × ℚ → ℚ` of the scheduler; concrete runs instantiate it
  with functions satisfying the properties geodesic distance has (e.g. a
  point has distance 0 to itself, distances are nonnegative).
-/

/-- Python exceptions relevant to the embedded core. `keyError` is what
pandas raises when a column is accessed on the no-column frame built from an
empty record list; `notFound` stands for a dedicated not-found signal as
demanded by the spec's error-handling design; the source code never raises
it. -/
inductive PyErr where
  | zeroDivision
  | valueError
  | indexError
  | keyError
  | notFound
deriving DecidableEq

/-- Python division: raises `ZeroDivisionError` when the denominator is zero
(also for float operands). -/
def pyDiv (a b : ℚ) : Except PyErr ℚ :=
  if b = 0 then .error .zeroDivision else .ok (a / b)

/-- Python `round(x, n)` to `n` decimal digits, over exact rationals.
Python rounds half to even; an exact tie at the `n`-th decimal digit is never
representable in a binary float, so round-half-up (Mathlib `round`) agrees
with the source on all float-realizable inputs. -/
def pyRound (q : ℚ) (n : ℕ) : ℚ :=
  ((round (q * (10 : ℚ) ^ n) : ℤ) : ℚ) / (10 : ℚ) ^ n

/-- A mining site record (src/scoring.py, src/matching.py, src/optimizer.py).
Display-only fields (`name`, `jurisdiction`) are omitted. -/
structure Site where
  site_id : String
  latitude : ℚ
  longitude : ℚ
  depth_m : ℚ
  distance_from_port_km : ℚ
  mineral_concentration : ℚ
  mineral_types : List String
  estimated_value_millions : ℚ
  environmental_sensitivity : ℚ
  terrain_difficulty : ℚ
  survey_data_quality : ℚ
deriving DecidableEq

/-- A survey robot record. Display-only fields (`name`, `type`, maintenance
dates) are omitted; `current_location` is flattened to `loc_lat`/`loc_lon`. -/
structure Robot where
  robot_id : String
  max_depth_m : ℚ
  endurance_hours : ℚ
  speed_knots : ℚ
  sensors : List String
  status : String
  loc_lat : ℚ
  loc_lon : ℚ
  day_rate_usd : ℚ
deriving DecidableEq

/-- The seven-criterion weight dictionary of `SitePrioritizationEngine`
(scoring.py), with the full key set. -/
structure Weights where
  mineral_concentration : ℚ
  depth : ℚ
  distance_from_port : ℚ
  environmental_sensitivity : ℚ
  estimated_value : ℚ
  terrain_difficulty : ℚ
  survey_data_quality : ℚ
deriving DecidableEq

/-- `SitePrioritizationEngine.DEFAULT_WEIGHTS`. -/
def DEFAULT_WEIGHTS : Weights :=
  { mineral_concentration := 20 / 100
    depth := 15 / 100
    distance_from_port := 10 / 100
    environmental_sensitivity := 15 / 100
    estimated_value := 20 / 100
    terrain_difficulty := 10 / 100
    survey_data_quality := 10 / 100 }

/-- `sum(self.weights.values())`. -/
def Weights.total (w : Weights) : ℚ :=
  w.mineral_concentration + w.depth + w.distance_from_port +
    w.environmental_sensitivity + w.estimated_value + w.terrain_difficulty +
    w.survey_data_quality

/-- `SitePrioritizationEngine.__init__` followed by `_validate_weights`.
The engine's only state is its weight dictionary, so a successful
construction is represented by the stored weights.  `weights if weights
else DEFAULT_WEIGHTS.copy()` falls back to the defaults exactly when the
argument is falsy (None or an empty dict), modelled by `Option.none`; a
dictionary whose seven values are all zero is non-empty, hence truthy.
The validation is `np.isclose(total, 1.0, atol=0.01)`, whose numpy
default relative tolerance is `rtol = 1e-5`:
`|a - b| <= atol + rtol * |b|`. -/
def SPE_init (weights : Option Weights) : Except PyErr Weights :=
  let w := weights.getD DEFAULT_WEIGHTS
  if |w.total - 1| ≤ 1 / 100 + 1 / 100000 * |(1 : ℚ)| then .ok w
  else .error .valueError

/-- The weight pre-normalization the UI applies before constructing the
engine (src/app.py lines 127-133): raw slider weights are scaled to sum to
1.0, and if all raw weights are zero, equal weights `1/7` are substituted. -/
def app_normalize_weights (raw : Weights) : Weights :=
  if 0 < raw.total then
    { mineral_concentration := raw.mineral_concentration / raw.total
      depth := raw.depth / raw.total
      distance_from_port := raw.distance_from_port / raw.total
      environmental_sensitivity := raw.environmental_sensitivity / raw.total
      estimated_value := raw.estimated_value / raw.total
      terrain_difficulty := raw.terrain_difficulty / raw.total
      survey_data_quality := raw.survey_data_quality / raw.total }
  else
    { mineral_concentration := 1 / 7
      depth := 1 / 7
      distance_from_port := 1 / 7
      environmental_sensitivity := 1 / 7
      estimated_value := 1 / 7
      terrain_difficulty := 1 / 7
      survey_data_quality := 1 / 7 }

/-- `SitePrioritizationEngine.normalize_score`. -/
def normalize_score (value min_val max_val : ℚ) (inverse : Bool) : ℚ :=
  if max_val = min_val then 50
  else
    let normalized := (value - min_val) / (max_val - min_val) * 100
    if inverse then 100 - normalized else normalized

/-- Column minimum (`df[col].min()`), used only on non-empty site lists
(pandas returns NaN on an empty column; every claim supplies sites). -/
def colMin (f : Site → ℚ) : List Site → ℚ
  | [] => 0
  | s :: rest => rest.foldl (fun a x => min a (f x)) (f s)

/-- Column maximum (`df[col].max()`), used only on non-empty site lists. -/
def colMax (f : Site → ℚ) : List Site → ℚ
  | [] => 0
  | s :: rest => rest.foldl (fun a x => max a (f x)) (f s)

/-- `mineral_score` column of `score_sites`. -/
def mineralScore (sites : List Site) (s : Site) : ℚ :=
  normalize_score s.mineral_concentration
    (colMin (fun t => t.mineral_concentration) sites)
    (colMax (fun t => t.mineral_concentration) sites) false

/-- `depth_score` column of `score_sites` (inverse scale). -/
def depthScore (sites : List Site) (s : Site) : ℚ :=
  normalize_score s.depth_m (colMin (fun t => t.depth_m) sites)
    (colMax (fun t => t.depth_m) sites) true

/-- `distance_score` column of `score_sites` (inverse scale). -/
def distanceScore (sites : List Site) (s : Site) : ℚ :=
  normalize_score s.distance_from_port_km
    (colMin (fun t => t.distance_from_port_km) sites)
    (colMax (fun t => t.distance_from_port_km) sites) true

/-- `environmental_score` column of `score_sites` (inverse scale). -/
def environmentalScore (sites : List Site) (s : Site) : ℚ :=
  normalize_score s.environmental_sensitivity
    (colMin (fun t => t.environmental_sensitivity) sites)
    (colMax (fun t => t.environmental_sensitivity) sites) true

/-- `value_score` column of `score_sites`. -/
def valueScore (sites : List Site) (s : Site) : ℚ :=
  normalize_score s.estimated_value_millions
    (colMin (fun t => t.estimated_value_millions) sites)
    (colMax (fun t => t.estimated_value_millions) sites) false

/-- `terrain_score` column of `score_sites` (inverse scale). -/
def terrainScore (sites : List Site) (s : Site) : ℚ :=
  normalize_score s.terrain_difficulty
    (colMin (fun t => t.terrain_difficulty) sites)
    (colMax (fun t => t.terrain_difficulty) sites) true

/-- `quality_score` column of `score_sites`. -/
def qualityScore (sites : List Site) (s : Site) : ℚ :=
  normalize_score s.survey_data_quality
    (colMin (fun t => t.survey_data_quality) sites)
    (colMax (fun t => t.survey_data_quality) sites) false

/-- The weighted composite before rounding (scoring.py lines 126-134). -/
def compositeRaw (w : Weights) (sites : List Site) (s : Site) : ℚ :=
  mineralScore sites s * w.mineral_concentration +
    depthScore sites s * w.depth +
    distanceScore sites s * w.distance_from_port +
    environmentalScore sites s * w.environmental_sensitivity +
    valueScore sites s * w.estimated_value +
    terrainScore sites s * w.terrain_difficulty +
    qualityScore sites s * w.survey_data_quality

/-- A site enriched with its sub-scores and composite score. -/
structure ScoredSite where
  site : Site
  mineral_score : ℚ
  depth_score : ℚ
  distance_score : ℚ
  environmental_score : ℚ
  value_score : ℚ
  terrain_score : ℚ
  quality_score : ℚ
  composite_score : ℚ
deriving DecidableEq

/-- One row of `score_sites`' output. -/
def scoreSite (w : Weights) (sites : List Site) (s : Site) : ScoredSite where
  site := s
  mineral_score := mineralScore sites s
  depth_score := depthScore sites s
  distance_score := distanceScore sites s
  environmental_score := environmentalScore sites s
  value_score := valueScore sites s
  terrain_score := terrainScore sites s
  quality_score := qualityScore sites s
  composite_score := pyRound (compositeRaw w sites s) 2

/-- `SitePrioritizationEngine.score_sites`: normalize each criterion against
the population ranges, combine by the engine's weights, round the composite
to two decimals, and sort descending by composite score.  pandas
`sort_values` leaves tie order unspecified (quicksort); a stable insertion
sort on the descending relation is used here, and no verified property
depends on tie order. -/
def score_sites (w : Weights) (sites : List Site) : List ScoredSite :=
  List.insertionSort (fun a b => b.composite_score ≤ a.composite_score)
    (sites.map (scoreSite w sites))

/-- `RobotSiteMatcher.SENSOR_REQUIREMENTS`: static mineral-category to
required-sensor lookup table. -/
def SENSOR_REQUIREMENTS : List (String × List String) :=
  [("Polymetallic Nodules",
      ["side_scan_sonar", "multi_beam_echo_sounder", "HD_camera"]),
   ("Polymetallic Sulfides",
      ["magnetometer", "side_scan_sonar", "HD_camera",
       "multi_beam_echo_sounder"]),
   ("Rare Earth Elements",
      ["multi_beam_echo_sounder", "sub_bottom_profiler", "sediment_sampler"]),
   ("Cobalt Crust",
      ["side_scan_sonar", "HD_camera", "magnetometer"])]

/-- Substring test on character lists: the second list occurs contiguously in
the first. -/
def charsContain (hay needle : List Char) : Bool :=
  match hay with
  | [] => needle.isEmpty
  | _ :: t => needle.isPrefixOf hay || charsContain t needle

/-- Python's `needle in hay` on strings (substring containment); the matcher
tests `if key in mineral_type`. -/
def strIn (needle hay : String) : Bool :=
  charsContain hay.data needle.data

/-- The required-sensor set of a site: union of the table entries whose key
occurs in one of the site's mineral-type labels.  Python accumulates into a
set; the embedding keeps a duplicate-free list (only membership and
cardinality are consumed downstream). -/
def requiredSensors (site : Site) : List String :=
  (site.mineral_types.foldl (fun acc mt =>
    SENSOR_REQUIREMENTS.foldl (fun acc2 kv =>
      if strIn kv.1 mt then acc2 ++ kv.2 else acc2) acc) []).dedup

/-- `RobotSiteMatcher.check_depth_compatibility` (boolean part; the message
strings are display only): the robot's usable depth is 90% of its rated
maximum. -/
def check_depth_compatibility (robot : Robot) (site : Site) : Bool :=
  site.depth_m ≤ robot.max_depth_m * (9 / 10)

/-- `missing_sensors` of `RobotSiteMatcher.check_sensor_compatibility`
(Python's `required_sensors - robot_sensors`; list order is unspecified for
a Python set and nothing downstream depends on it). -/
def missingSensors (robot : Robot) (site : Site) : List String :=
  (requiredSensors site).filter (fun x => !(robot.sensors.contains x))

/-- Depth facet of `RobotSiteMatcher.calculate_compatibility_score`:
40 points, with partial credit `min(40, ratio * 40)` otherwise.  ℚ-division
is total; the source raises ZeroDivisionError exactly when
`site.depth_m = 0` and `robot.max_depth_m * 0.9 < 0`, a corner no claim
reaches (claim C8 assumes a positive site depth). -/
def depthCredit (robot : Robot) (site : Site) : ℚ :=
  if check_depth_compatibility robot site then 40
  else min 40 (robot.max_depth_m / site.depth_m * 40)

/-- Sensor facet of `calculate_compatibility_score`: 40 points, with
fractional credit `present/required * 40` otherwise. -/
def sensorCredit (robot : Robot) (site : Site) : ℚ :=
  if (missingSensors robot site).isEmpty then 40
  else if 0 < (requiredSensors site).length then
    (((requiredSensors site).length - (missingSensors robot site).length : ℕ) : ℚ) /
      ((requiredSensors site).length : ℚ) * 40
  else 0

/-- Status facet of `calculate_compatibility_score`: 20 points iff the
robot's status is exactly `Available`. -/
def statusCredit (robot : Robot) : ℚ :=
  if robot.status = "Available" then 20 else 0

/-- `RobotSiteMatcher.calculate_compatibility_score`: the three facet
credits summed and rounded to two decimals. -/
def calculate_compatibility_score (robot : Robot) (site : Site) : ℚ :=
  pyRound (depthCredit robot site + sensorCredit robot site + statusCredit robot) 2

/-- Output record of `RobotSiteMatcher.get_detailed_compatibility`
(display-only name fields and message strings omitted). -/
structure DetailedCompat where
  robot_id : String
  site_id : String
  compatibility_score : ℚ
  overall_status : String
  status_color : String
  depth_compatible : Bool
  sensor_compatible : Bool
  missing_sensors : List String
  status_compatible : Bool
deriving DecidableEq

/-- `RobotSiteMatcher.get_detailed_compatibility`.  The source selects
`robots_df[robots_df['robot_id'] == robot_id].iloc[0]` (matching.py line
190, then line 191 for the site): on an empty collection the frame built
from the empty record list has no columns and the column access
`robots_df['robot_id']` itself raises KeyError; on a non-empty collection
with an absent identifier the selection is empty and `.iloc[0]` raises a
plain `IndexError` ("single positional indexer is out-of-bounds").  The
robot lookup runs before the site lookup. -/
def get_detailed_compatibility (robots : List Robot) (sites : List Site)
    (robot_id site_id : String) : Except PyErr DetailedCompat :=
  if robots.isEmpty then .error .keyError
  else
  match robots.find? (fun r => r.robot_id == robot_id) with
  | none => .error .indexError
  | some robot =>
    if sites.isEmpty then .error .keyError
    else
    match sites.find? (fun s => s.site_id == site_id) with
    | none => .error .indexError
    | some site =>
      let depth_ok := check_depth_compatibility robot site
      let sensor_ok := (missingSensors robot site).isEmpty
      let status_ok := robot.status = "Available"
      .ok
        { robot_id := robot_id
          site_id := site_id
          compatibility_score := calculate_compatibility_score robot site
          overall_status :=
            if depth_ok ∧ sensor_ok ∧ status_ok then "Fully Compatible"
            else if depth_ok ∧ status_ok then "Partially Compatible"
            else "Incompatible"
          status_color :=
            if depth_ok ∧ sensor_ok ∧ status_ok then "green"
            else if depth_ok ∧ status_ok then "yellow"
            else "red"
          depth_compatible := depth_ok
          sensor_compatible := sensor_ok
          missing_sensors := missingSensors robot site
          status_compatible := status_ok }

/-- A scheduled mission (optimizer.py lines 228-243).  `mission_num` models
the sequential identifier `MISSION_{n:03d}`; display-only fields (names,
site coordinates) are omitted.  Times are hours on the planning axis. -/
structure Mission where
  mission_num : ℕ
  site_id : String
  robot_id : String
  start_date : ℚ
  end_date : ℚ
  transit_hours : ℚ
  survey_hours : ℚ
  total_hours : ℚ
  cost_usd : ℚ
  compatibility_score : ℚ
deriving DecidableEq

/-- One entry of the scheduler's `robot_schedules` dictionary. -/
structure RobotSched where
  robot : Robot
  available_from : ℚ
  missions : List Mission
deriving DecidableEq

/-- The scheduler's loop state: committed missions, remaining budget, and
the per-robot schedules. -/
structure SchedState where
  missions : List Mission
  remaining : ℚ
  scheds : List RobotSched
deriving DecidableEq

/-- The fixed baseline sensor requirement of the scheduler's simplified
compatibility score. -/
def BASELINE_SENSORS : List String :=
  ["side_scan_sonar", "multi_beam_echo_sounder", "HD_camera"]

/-- `MissionOptimizer.calculate_compatibility_score_simple`: depth fit
weighted 50 plus the three-sensor baseline weighted 50.  Within the
scheduling loop the depth filter guarantees `max_depth_m * 0.9 >= depth_m`,
so the partial-credit division (which Python would fault on at zero site
depth) is never reached there. -/
def calculate_compatibility_score_simple (robot : Robot) (site : Site) : ℚ :=
  let depth_part :=
    if site.depth_m ≤ robot.max_depth_m * (9 / 10) then (50 : ℚ)
    else min 50 (robot.max_depth_m / site.depth_m * 50)
  let sensor_match :=
    ((BASELINE_SENSORS.filter (fun s => robot.sensors.contains s)).length : ℚ) / 3
  depth_part + sensor_match * 50

/-- `MissionOptimizer.calculate_mission_duration`: survey time from a fixed
25 km² area and the robot's speed (knots → km/h via 1.852), a ×3 coverage
pattern, depth and terrain factors, 4 h deployment overhead, capped at 80%
of the robot's endurance.  Python raises ZeroDivisionError when the robot
speed is zero. -/
def calculate_mission_duration (site : Site) (robot : Robot) :
    Except PyErr ℚ :=
  match pyDiv 25 (robot.speed_knots * (1852 / 1000)) with
  | .error e => .error e
  | .ok base =>
    let survey_hours := base * 3
    let depth_factor := 1 + site.depth_m / 5000 * (1 / 2)
    let terrain_factor := 1 + site.terrain_difficulty / 100 * (3 / 10)
    let total_hours := survey_hours * depth_factor * terrain_factor + 4
    .ok (min total_hours (robot.endurance_hours * (8 / 10)))

/-- `MissionOptimizer.calculate_mission_cost`: (robot day rate + vessel day
rate + $15,000/day operational surcharge) × total days. -/
def calculate_mission_cost (robot : Robot)
    (mission_duration_hours transit_time_hours vessel_day_rate : ℚ) : ℚ :=
  let total_days := (mission_duration_hours + transit_time_hours) / 24
  robot.day_rate_usd * total_days + vessel_day_rate * total_days +
    total_days * 15000

/-- Drop roster entries whose `robot_id` was already seen: the Python
`robot_schedules` dict comprehension collapses duplicate ids into one entry,
and the loop body's `available_robots[...].iloc[0]` lookup returns the first
matching row, so keeping first occurrences is faithful. -/
def dedupById : List Robot → List String → List Robot
  | [], _ => []
  | r :: rest, seen =>
    if seen.contains r.robot_id then dedupById rest seen
    else r :: dedupById rest (r.robot_id :: seen)

/-- The scheduler's inner best-robot loop (optimizer.py lines 171-193):
skip robots whose usable depth cannot reach the site, otherwise keep the
candidate whose simplified score strictly exceeds the best so far
(initialized to `best_robot = None`, `best_score = -1`). -/
def pickBest (site : Site) (l : List RobotSched)
    (acc : Option RobotSched × ℚ) : Option RobotSched × ℚ :=
  match l with
  | [] => acc
  | rs :: rest =>
    if rs.robot.max_depth_m * (9 / 10) < site.depth_m then
      pickBest site rest acc
    else
      let c := calculate_compatibility_score_simple rs.robot site
      if acc.2 < c then pickBest site rest (some rs, c)
      else pickBest site rest acc

/-- Update the schedule entry (or entries) keyed by `rid`: advance
`available_from` to the mission end and append the mission. -/
def updateSched (scheds : List RobotSched) (rid : String) (newFrom : ℚ)
    (m : Mission) : List RobotSched :=
  scheds.map (fun rs =>
    if rs.robot.robot_id = rid then
      { rs with available_from := newFrom, missions := rs.missions ++ [m] }
    else rs)

/-- One iteration of the scheduler's site loop (optimizer.py lines 171-250):
pick the best robot, require score ≥ 40, compute transit (from the robot's
`current_location`), duration and cost, skip if over the remaining budget or
past the planning horizon (`(mission_end - start_date).days`, i.e. the floor
of the elapsed hours / 24, compared with `time_window_days`), else commit. -/
def scheduleSite (dist : ℚ × ℚ → ℚ × ℚ → ℚ)
    (vessel_speed_knots vessel_day_rate : ℚ) (time_window_days : ℤ) (t0 : ℚ)
    (st : SchedState) (site : Site) : Except PyErr SchedState :=
  match pickBest site st.scheds (none, -1) with
  | (none, _) => .ok st
  | (some rs, best_score) =>
    if best_score < 40 then .ok st
    else
      match pyDiv (dist (rs.robot.loc_lat, rs.robot.loc_lon)
          (site.latitude, site.longitude)) (vessel_speed_knots * (1852 / 1000)) with
      | .error e => .error e
      | .ok transit_time =>
        match calculate_mission_duration site rs.robot with
        | .error e => .error e
        | .ok mission_duration =>
          let mission_cost := calculate_mission_cost rs.robot
            mission_duration transit_time vessel_day_rate
          if st.remaining < mission_cost then .ok st
          else
            let total_hours := transit_time + mission_duration
            let mission_end := rs.available_from + total_hours
            if time_window_days < ⌊(mission_end - t0) / 24⌋ then .ok st
            else
              let m : Mission :=
                { mission_num := st.missions.length + 1
                  site_id := site.site_id
                  robot_id := rs.robot.robot_id
                  start_date := rs.available_from
                  end_date := mission_end
                  transit_hours := pyRound transit_time 1
                  survey_hours := pyRound mission_duration 1
                  total_hours := pyRound total_hours 1
                  cost_usd := pyRound mission_cost 2
                  compatibility_score := best_score }
              .ok
                { missions := st.missions ++ [m]
                  remaining := st.remaining - mission_cost
                  scheds := updateSched st.scheds rs.robot.robot_id
                    mission_end m }

/-- The greedy site loop: stop as soon as the remaining budget is ≤ 0,
otherwise process the next site and recurse. -/
def runSites (dist : ℚ × ℚ → ℚ × ℚ → ℚ)
    (vessel_speed_knots vessel_day_rate : ℚ) (time_window_days : ℤ) (t0 : ℚ) :
    List Site → SchedState → Except PyErr SchedState
  | [], st => .ok st
  | site :: rest, st =>
    if st.remaining ≤ 0 then .ok st
    else
      match scheduleSite dist vessel_speed_knots vessel_day_rate
          time_window_days t0 st site with
      | .error e => .error e
      | .ok st2 =>
        runSites dist vessel_speed_knots vessel_day_rate time_window_days t0
          rest st2

/-- The scheduler's statistics block (optimizer.py lines 252-271).
`coverage_percent` divides by the number of sites (line 257, evaluated
before the result dictionary), and `budget_utilization_percent` divides by
`budget_usd`; Python raises ZeroDivisionError when either is zero.  The
average mission cost is explicitly guarded for the empty-missions case. -/
structure SchedStats where
  total_missions : ℕ
  total_cost_usd : ℚ
  remaining_budget_usd : ℚ
  budget_utilization_percent : ℚ
  num_sites_surveyed : ℕ
  num_robots_used : ℕ
  coverage_percent : ℚ
  avg_mission_cost_usd : ℚ
deriving DecidableEq

/-- Compute the statistics for a finished scheduling state. -/
def computeStats (num_sites : ℕ) (budget_usd : ℚ) (st : SchedState) :
    Except PyErr SchedStats :=
  let total_cost := budget_usd - st.remaining
  let num_sites_surveyed := (st.missions.map (fun m => m.site_id)).dedup.length
  let num_robots_used := (st.missions.map (fun m => m.robot_id)).dedup.length
  match pyDiv (num_sites_surveyed : ℚ) (num_sites : ℚ) with
  | .error e => .error e
  | .ok coverage_frac =>
    match pyDiv total_cost budget_usd with
    | .error e => .error e
    | .ok util_frac =>
      .ok
        { total_missions := st.missions.length
          total_cost_usd := pyRound total_cost 2
          remaining_budget_usd := pyRound st.remaining 2
          budget_utilization_percent := pyRound (util_frac * 100) 2
          num_sites_surveyed := num_sites_surveyed
          num_robots_used := num_robots_used
          coverage_percent := pyRound (coverage_frac * 100) 2
          avg_mission_cost_usd :=
            if st.missions.isEmpty then 0
            else pyRound (total_cost / (st.missions.length : ℚ)) 2 }

/-- The scheduler's result: the mission list plus the statistics summary. -/
structure SchedResult where
  missions : List Mission
  statistics : SchedStats
deriving DecidableEq

/-- The site-priority sort key: raw mineral concentration for
`prioritize_by = 'score'`, estimated value otherwise. -/
def siteKey (prioritize_by : String) (s : Site) : ℚ :=
  if prioritize_by == "score" then s.mineral_concentration
  else s.estimated_value_millions

/-- `MissionOptimizer.greedy_mission_scheduler`: filter to `Available`
robots, initialize each availability timestamp to the planning start `t0`,
sort sites descending by the priority key (pandas `sort_values` leaves tie
order unspecified; a stable insertion sort is used here and no verified
property depends on tie order), run the greedy loop, and compute the
statistics.  On an empty roster the frame `pd.DataFrame([])` has no
columns, so `robots_df['status']` (optimizer.py lines 146-148) raises
KeyError; likewise `sort_values` on the no-column frame of an empty site
list (lines 157-164) raises KeyError before the loop and the statistics. -/
def greedy_mission_scheduler (dist : ℚ × ℚ → ℚ × ℚ → ℚ)
    (robots : List Robot) (sites : List Site) (t0 : ℚ)
    (time_window_days : ℤ) (budget_usd vessel_speed_knots vessel_day_rate : ℚ)
    (prioritize_by : String) : Except PyErr SchedResult :=
  if robots.isEmpty then .error .keyError
  else if sites.isEmpty then .error .keyError
  else
  let available := robots.filter (fun r => r.status == "Available")
  let scheds := (dedupById available []).map
    (fun r => { robot := r, available_from := t0, missions := [] : RobotSched })
  let sites_sorted := List.insertionSort
    (fun a b => siteKey prioritize_by b ≤ siteKey prioritize_by a) sites
  match runSites dist vessel_speed_knots vessel_day_rate time_window_days t0
      sites_sorted { missions := [], remaining := budget_usd, scheds := scheds } with
  | .error e => .error e
  | .ok final =>
    match computeStats sites.length budget_usd final with
    | .error e => .error e
    | .ok stats => .ok { missions := final.missions, statistics := stats }

/-- The all-zero raw weight dictionary of claim C4. -/
def zeroWeights : Weights :=
  { mineral_concentration := 0, depth := 0, distance_from_port := 0
    environmental_sensitivity := 0, estimated_value := 0
    terrain_difficulty := 0, survey_data_quality := 0 }

/-- Equal weights, 1/7 per criterion. -/
def equalWeights : Weights :=
  { mineral_concentration := 1 / 7, depth := 1 / 7
    distance_from_port := 1 / 7, environmental_sensitivity := 1 / 7
    estimated_value := 1 / 7, terrain_difficulty := 1 / 7
    survey_data_quality := 1 / 7 }

/-- A weight set summing to 1.010005: outside the spec's stated ±0.01
tolerance but inside np.isclose's effective `atol + rtol` band. -/
def wC5 : Weights :=
  { mineral_concentration := 202001 / 200000, depth := 0
    distance_from_port := 0, environmental_sensitivity := 0
    estimated_value := 0, terrain_difficulty := 0
    survey_data_quality := 0 }

/-- Seven equal weights of 101/700 each, summing to 1.01 (accepted by the
±0.01 validator). -/
def wC6 : Weights :=
  { mineral_concentration := 101 / 700, depth := 101 / 700
    distance_from_port := 101 / 700, environmental_sensitivity := 101 / 700
    estimated_value := 101 / 700, terrain_difficulty := 101 / 700
    survey_data_quality := 101 / 700 }

/-- A site that is best in the population on all seven criteria. -/
def siteA : Site :=
  { site_id := "S1", latitude := 0, longitude := 0, depth_m := 0
    distance_from_port_km := 0, mineral_concentration := 100
    mineral_types := ["Polymetallic Nodules"], estimated_value_millions := 500
    environmental_sensitivity := 0, terrain_difficulty := 0
    survey_data_quality := 100 }

/-- A site that is worst in the population on all seven criteria. -/
def siteB : Site :=
  { site_id := "S2", latitude := 1, longitude := 1, depth_m := 1000
    distance_from_port_km := 100, mineral_concentration := 0
    mineral_types := ["Cobalt Crust"], estimated_value_millions := 0
    environmental_sensitivity := 50, terrain_difficulty := 50
    survey_data_quality := 0 }

/-- A robot used by the matcher claims. -/
def robotW : Robot :=
  { robot_id := "RW", max_depth_m := 800, endurance_hours := 20
    speed_knots := 8, sensors := ["side_scan_sonar"], status := "Available"
    loc_lat := 0, loc_lon := 0, day_rate_usd := 50000 }

/-- Distance function for concrete scheduler runs: all listed locations
coincide with the robots' location, so every geodesic distance is 0 (the
geodesic distance of a point to itself). -/
def distZero : ℚ × ℚ → ℚ × ℚ → ℚ := fun _ _ => 0

/-- An available robot carrying the full baseline sensor suite; its 80%
endurance cap (8 h) binds the mission duration, making mission costs exact
round numbers. -/
def robotR : Robot :=
  { robot_id := "R1", max_depth_m := 1000, endurance_hours := 10
    speed_knots := 10, sensors := BASELINE_SENSORS, status := "Available"
    loc_lat := 0, loc_lon := 0, day_rate_usd := 0 }

/-- First survey site of the concrete scheduler run. -/
def siteC : Site :=
  { site_id := "S3", latitude := 0, longitude := 0, depth_m := 100
    distance_from_port_km := 10, mineral_concentration := 50
    mineral_types := ["Polymetallic Nodules"], estimated_value_millions := 10
    environmental_sensitivity := 10, terrain_difficulty := 0
    survey_data_quality := 50 }

/-- Second survey site of the concrete scheduler run. -/
def siteD : Site :=
  { site_id := "S4", latitude := 0, longitude := 0, depth_m := 100
    distance_from_port_km := 10, mineral_concentration := 40
    mineral_types := ["Polymetallic Nodules"], estimated_value_millions := 10
    environmental_sensitivity := 10, terrain_difficulty := 0
    survey_data_quality := 50 }

/-- Roster and site list for the concrete scheduler run. -/
def robotsR : List Robot := [robotR]

/-- Sites of the concrete scheduler run. -/
def sitesR : List Site := [siteC, siteD]

/-- All-zero statistics record (used as a default when destructuring). -/
def emptyStats : SchedStats :=
  { total_missions := 0, total_cost_usd := 0, remaining_budget_usd := 0
    budget_utilization_percent := 0, num_sites_surveyed := 0
    num_robots_used := 0, coverage_percent := 0, avg_mission_cost_usd := 0 }

/-- The concrete scheduler run: both robots co-located with both sites,
budget $100,000, both missions cost $5,000 and go to robot R1 serially. -/
def schedRunR : Except PyErr SchedResult :=
  greedy_mission_scheduler distZero robotsR sitesR 0 180 100000 12 0 "score"

/-- The result object of the concrete run: robot R1 serves both sites
serially, missions [0h, 8h) and [8h, 16h), $5,000 each. -/
def schedResR : SchedResult :=
  { missions :=
      [{ mission_num := 1, site_id := "S3", robot_id := "R1", start_date := 0
         end_date := 8, transit_hours := 0, survey_hours := 8, total_hours := 8
         cost_usd := 5000, compatibility_score := 100 },
       { mission_num := 2, site_id := "S4", robot_id := "R1", start_date := 8
         end_date := 16, transit_hours := 0, survey_hours := 8, total_hours := 8
         cost_usd := 5000, compatibility_score := 100 }]
    statistics :=
      { total_missions := 2, total_cost_usd := 10000
        remaining_budget_usd := 90000, budget_utilization_percent := 10
        num_sites_surveyed := 2, num_robots_used := 1, coverage_percent := 100
        avg_mission_cost_usd := 5000 } }

/-- The result object of a run with a negative budget (−$1): the loop exits
immediately, yet the statistics are produced normally because neither
divisor is zero. -/
def schedResNeg : SchedResult :=
  { missions := [], statistics := { emptyStats with remaining_budget_usd := -1 } }


/-- Budget invariant of the scheduling loop: the remaining budget never goes
negative, and the committed (cent-rounded) mission costs sum to at most the
spent budget plus half a cent per mission of rounding slack. -/
def BudgetInv (b : ℚ) (st : SchedState) : Prop :=
  0 ≤ st.remaining ∧
    (st.missions.map (fun m => m.cost_usd)).sum ≤
      (b - st.remaining) + (st.missions.length : ℚ) / 200

/-- Serialization invariant of the scheduling loop: schedule entries carry
well-formed robots, every committed mission of a robot ends no later than
that robot's availability timestamp, and the committed missions of any one
robot are chronologically serialized. -/
def SchedInv (st : SchedState) : Prop :=
  (∀ rs ∈ st.scheds, 0 ≤ rs.robot.endurance_hours ∧ 0 ≤ rs.robot.speed_knots) ∧
    (∀ rs ∈ st.scheds, ∀ m ∈ st.missions,
      m.robot_id = rs.robot.robot_id → m.end_date ≤ rs.available_from) ∧
    st.missions.Pairwise
      (fun m1 m2 => m1.robot_id = m2.robot_id → m1.end_date ≤ m2.start_date)

lemma SPE_init_eq (w : Weights) :
    SPE_init (some w) =
      if |w.total - 1| ≤ 1001 / 100000 then .ok w else .error .valueError := by
  have h : (1 / 100 + 1 / 100000 * |(1 : ℚ)| : ℚ) = 1001 / 100000 := by norm_num
  simp only [SPE_init, Option.getD_some, h]

lemma pyRound_mono {q r : ℚ} (n : ℕ) (h : q ≤ r) : pyRound q n ≤ pyRound r n := by
  unfold pyRound
  have h10 : (0 : ℚ) < (10 : ℚ) ^ n := by positivity
  have hfl : round (q * (10 : ℚ) ^ n) ≤ round (r * (10 : ℚ) ^ n) := by
    rw [round_eq, round_eq]
    exact Int.floor_le_floor (by nlinarith)
  have hc : ((round (q * (10 : ℚ) ^ n) : ℤ) : ℚ) ≤
      ((round (r * (10 : ℚ) ^ n) : ℤ) : ℚ) := by exact_mod_cast hfl
  exact (div_le_div_right h10).mpr hc

lemma pyRound_le_add_half (q : ℚ) : pyRound q 2 ≤ q + 1 / 200 := by
  have h1 : ((round (q * (10 : ℚ) ^ 2) : ℤ) : ℚ) ≤ q * (10 : ℚ) ^ 2 + 1 / 2 := by
    rw [round_eq]
    exact Int.floor_le _
  have h2 : pyRound q 2 ≤ (q * (10 : ℚ) ^ 2 + 1 / 2) / (10 : ℚ) ^ 2 := by
    unfold pyRound
    exact (div_le_div_right (by positivity)).mpr h1
  calc pyRound q 2 ≤ (q * (10 : ℚ) ^ 2 + 1 / 2) / (10 : ℚ) ^ 2 := h2
    _ = q + 1 / 200 := by field_simp; ring

lemma pyRound_zero (n : ℕ) : pyRound 0 n = 0 := by
  simp [pyRound]

lemma pyRound_hundred : pyRound 100 2 = 100 := by
  norm_num [pyRound, round_eq]

lemma foldl_min_le (f : Site → ℚ) :
    ∀ (l : List Site) (a : ℚ), l.foldl (fun x y => min x (f y)) a ≤ a
  | [], a => le_refl a
  | s :: t, a => le_trans (foldl_min_le f t (min a (f s))) (min_le_left _ _)

lemma foldl_min_le_mem (f : Site → ℚ) (l : List Site) :
    ∀ (a : ℚ) (s : Site), s ∈ l → l.foldl (fun x y => min x (f y)) a ≤ f s := by
  induction l with
  | nil => intro a s hs; cases hs
  | cons b t ih =>
    intro a s hs
    rcases List.mem_cons.mp hs with h | h
    · subst h
      exact le_trans (foldl_min_le f t _) (min_le_right _ _)
    · exact ih _ s h

lemma le_foldl_max (f : Site → ℚ) :
    ∀ (l : List Site) (a : ℚ), a ≤ l.foldl (fun x y => max x (f y)) a
  | [], a => le_refl a
  | s :: t, a => le_trans (le_max_left _ _) (le_foldl_max f t (max a (f s)))

lemma mem_le_foldl_max (f : Site → ℚ) (l : List Site) :
    ∀ (a : ℚ) (s : Site), s ∈ l → f s ≤ l.foldl (fun x y => max x (f y)) a := by
  induction l with
  | nil => intro a s hs; cases hs
  | cons b t ih =>
    intro a s hs
    rcases List.mem_cons.mp hs with h | h
    · subst h
      exact le_trans (le_max_right _ _) (le_foldl_max f t _)
    · exact ih _ s h

lemma colMin_le {f : Site → ℚ} {l : List Site} {s : Site} (hs : s ∈ l) :
    colMin f l ≤ f s := by
  cases l with
  | nil => cases hs
  | cons b t =>
    rcases List.mem_cons.mp hs with h | h
    · subst h
      exact foldl_min_le f t (f s)
    · exact foldl_min_le_mem f t (f b) s h

lemma le_colMax {f : Site → ℚ} {l : List Site} {s : Site} (hs : s ∈ l) :
    f s ≤ colMax f l := by
  cases l with
  | nil => cases hs
  | cons b t =>
    rcases List.mem_cons.mp hs with h | h
    · subst h
      exact le_foldl_max f t (f s)
    · exact mem_le_foldl_max f t (f b) s h

lemma normalize_bounds {v m M : ℚ} (inv : Bool) (h1 : m ≤ v) (h2 : v ≤ M) :
    0 ≤ normalize_score v m M inv ∧ normalize_score v m M inv ≤ 100 := by
  unfold normalize_score
  by_cases h : M = m
  · simp [h]
    norm_num
  · have hlt : m < M := lt_of_le_of_ne (h1.trans h2) (Ne.symm h)
    have hpos : 0 < M - m := sub_pos.mpr hlt
    have hfrac0 : 0 ≤ (v - m) / (M - m) := div_nonneg (sub_nonneg.mpr h1) hpos.le
    have hfrac1 : (v - m) / (M - m) ≤ 1 :=
      (div_le_one hpos).mpr (sub_le_sub_right h2 m)
    simp only [h, if_false]
    cases inv <;> simp <;> constructor <;> nlinarith

lemma normalize_col_bounds (f : Site → ℚ) (inv : Bool) {l : List Site}
    {s : Site} (hs : s ∈ l) :
    0 ≤ normalize_score (f s) (colMin f l) (colMax f l) inv ∧
      normalize_score (f s) (colMin f l) (colMax f l) inv ≤ 100 :=
  normalize_bounds inv (colMin_le hs) (le_colMax hs)

lemma mineralScore_bounds {l : List Site} {s : Site} (hs : s ∈ l) :
    0 ≤ mineralScore l s ∧ mineralScore l s ≤ 100 :=
  normalize_col_bounds (fun t => t.mineral_concentration) false hs

lemma depthScore_bounds {l : List Site} {s : Site} (hs : s ∈ l) :
    0 ≤ depthScore l s ∧ depthScore l s ≤ 100 :=
  normalize_col_bounds (fun t => t.depth_m) true hs

lemma distanceScore_bounds {l : List Site} {s : Site} (hs : s ∈ l) :
    0 ≤ distanceScore l s ∧ distanceScore l s ≤ 100 :=
  normalize_col_bounds (fun t => t.distance_from_port_km) true hs

lemma environmentalScore_bounds {l : List Site} {s : Site} (hs : s ∈ l) :
    0 ≤ environmentalScore l s ∧ environmentalScore l s ≤ 100 :=
  normalize_col_bounds (fun t => t.environmental_sensitivity) true hs

lemma valueScore_bounds {l : List Site} {s : Site} (hs : s ∈ l) :
    0 ≤ valueScore l s ∧ valueScore l s ≤ 100 :=
  normalize_col_bounds (fun t => t.estimated_value_millions) false hs

lemma terrainScore_bounds {l : List Site} {s : Site} (hs : s ∈ l) :
    0 ≤ terrainScore l s ∧ terrainScore l s ≤ 100 :=
  normalize_col_bounds (fun t => t.terrain_difficulty) true hs

lemma qualityScore_bounds {l : List Site} {s : Site} (hs : s ∈ l) :
    0 ≤ qualityScore l s ∧ qualityScore l s ≤ 100 :=
  normalize_col_bounds (fun t => t.survey_data_quality) false hs


lemma pyDiv_ok {a b q : ℚ} (h : pyDiv a b = .ok q) : b ≠ 0 ∧ q = a / b := by
  unfold pyDiv at h
  split at h
  · simp at h
  · rename_i hb
    simp only [Except.ok.injEq] at h
    exact ⟨hb, h.symm⟩

lemma transit_nonneg {a vs q : ℚ} (ha : 0 ≤ a) (hvs : 0 ≤ vs)
    (h : pyDiv a (vs * (1852 / 1000)) = .ok q) : 0 ≤ q := by
  obtain ⟨hb, rfl⟩ := pyDiv_ok h
  have hvspos : 0 < vs := by
    rcases lt_or_eq_of_le hvs with hlt | heq
    · exact hlt
    · exact absurd (by rw [← heq]; ring) hb
  have hden : 0 < vs * (1852 / 1000) := by positivity
  exact div_nonneg ha hden.le

lemma duration_ok_nonneg {site : Site} {robot : Robot} {q : ℚ}
    (hsd : 0 ≤ site.depth_m) (hterr : 0 ≤ site.terrain_difficulty)
    (hend : 0 ≤ robot.endurance_hours) (hspeed : 0 ≤ robot.speed_knots)
    (h : calculate_mission_duration site robot = .ok q) : 0 ≤ q := by
  unfold calculate_mission_duration at h
  split at h
  · simp at h
  · rename_i base hbase
    simp only [Except.ok.injEq] at h
    subst h
    obtain ⟨hb, rfl⟩ := pyDiv_ok hbase
    have hsp : 0 < robot.speed_knots := by
      rcases lt_or_eq_of_le hspeed with hlt | heq
      · exact hlt
      · exact absurd (by rw [← heq]; ring) hb
    have hbase0 : 0 ≤ 25 / (robot.speed_knots * (1852 / 1000)) := by positivity
    refine le_min ?_ ?_
    · have h1 : 0 ≤ (1 : ℚ) + site.depth_m / 5000 * (1 / 2) := by positivity
      have h2 : 0 ≤ (1 : ℚ) + site.terrain_difficulty / 100 * (3 / 10) := by
        positivity
      have hprod : 0 ≤ 25 / (robot.speed_knots * (1852 / 1000)) * 3 *
          (1 + site.depth_m / 5000 * (1 / 2)) *
          (1 + site.terrain_difficulty / 100 * (3 / 10)) :=
        mul_nonneg (mul_nonneg (mul_nonneg hbase0 (by norm_num)) h1) h2
      linarith
    · nlinarith

lemma pickBest_mem (site : Site) :
    ∀ (l : List RobotSched) (acc : Option RobotSched × ℚ) (rs : RobotSched)
      (c : ℚ), pickBest site l acc = (some rs, c) → rs ∈ l ∨ acc.1 = some rs := by
  intro l
  induction l with
  | nil =>
    intro acc rs c h
    unfold pickBest at h
    right
    rw [h]
  | cons a t ih =>
    intro acc rs c h
    unfold pickBest at h
    dsimp only at h
    split at h
    · rcases ih acc rs c h with hm | ha
      · exact Or.inl (List.mem_cons_of_mem _ hm)
      · exact Or.inr ha
    · split at h
      · rcases ih _ rs c h with hm | ha
        · exact Or.inl (List.mem_cons_of_mem _ hm)
        · left
          simp only [Option.some.injEq] at ha
          rw [← ha]
          exact List.mem_cons_self _ _
      · rcases ih acc rs c h with hm | ha
        · exact Or.inl (List.mem_cons_of_mem _ hm)
        · exact Or.inr ha

lemma dedupById_subset : ∀ (l : List Robot) (seen : List String) (r : Robot),
    r ∈ dedupById l seen → r ∈ l := by
  intro l
  induction l with
  | nil =>
    intro seen r h
    unfold dedupById at h
    cases h
  | cons a t ih =>
    intro seen r h
    unfold dedupById at h
    split at h
    · exact List.mem_cons_of_mem _ (ih _ r h)
    · rcases List.mem_cons.mp h with h1 | h1
      · subst h1; exact List.mem_cons_self _ _
      · exact List.mem_cons_of_mem _ (ih _ r h1)

lemma updateSched_mem {scheds : List RobotSched} {rid : String} {nf : ℚ}
    {m : Mission} {rs2 : RobotSched} (h : rs2 ∈ updateSched scheds rid nf m) :
    ∃ rs0 ∈ scheds, rs2.robot = rs0.robot ∧
      ((rs0.robot.robot_id = rid ∧ rs2.available_from = nf) ∨
        (rs0.robot.robot_id ≠ rid ∧ rs2 = rs0)) := by
  unfold updateSched at h
  rcases List.mem_map.mp h with ⟨rs0, hmem, heq⟩
  refine ⟨rs0, hmem, ?_⟩
  by_cases hid : rs0.robot.robot_id = rid
  · rw [if_pos hid] at heq
    refine ⟨by rw [← heq], Or.inl ⟨hid, by rw [← heq]⟩⟩
  · rw [if_neg hid] at heq
    exact ⟨by rw [← heq], Or.inr ⟨hid, heq.symm⟩⟩

lemma scheduleSite_ok_budget {dist : ℚ × ℚ → ℚ × ℚ → ℚ} {vs vr : ℚ}
    {tw : ℤ} {t0 : ℚ} {st : SchedState} {site : Site} {st2 : SchedState}
    {b : ℚ} (h : scheduleSite dist vs vr tw t0 st site = .ok st2)
    (hinv : BudgetInv b st) : BudgetInv b st2 := by
  unfold scheduleSite at h
  dsimp only at h
  split at h
  · simp only [Except.ok.injEq] at h
    subst h
    exact hinv
  · rename_i rs best_score hpick
    split at h
    · simp only [Except.ok.injEq] at h
      subst h
      exact hinv
    · split at h
      · simp at h
      · rename_i transit htr
        split at h
        · simp at h
        · rename_i dur hdur
          split at h
          · simp only [Except.ok.injEq] at h
            subst h
            exact hinv
          · split at h
            · simp only [Except.ok.injEq] at h
              subst h
              exact hinv
            · rename_i hcost htime
              simp only [Except.ok.injEq] at h
              subst h
              obtain ⟨hrem, hsum⟩ := hinv
              have hcost2 : calculate_mission_cost rs.robot dur transit vr ≤
                  st.remaining := not_lt.mp hcost
              constructor
              · dsimp only
                linarith
              · dsimp only
                rw [List.map_append, List.sum_append, List.length_append]
                have hr := pyRound_le_add_half
                  (calculate_mission_cost rs.robot dur transit vr)
                simp only [List.map_cons, List.map_nil, List.sum_cons,
                  List.sum_nil, List.length_singleton]
                push_cast
                linarith

lemma runSites_ok_budget {dist : ℚ × ℚ → ℚ × ℚ → ℚ} {vs vr : ℚ} {tw : ℤ}
    {t0 : ℚ} {b : ℚ} :
    ∀ (sites : List Site) (st st2 : SchedState),
      runSites dist vs vr tw t0 sites st = .ok st2 →
      BudgetInv b st → BudgetInv b st2 := by
  intro sites
  induction sites with
  | nil =>
    intro st st2 h hi
    unfold runSites at h
    simp only [Except.ok.injEq] at h
    subst h
    exact hi
  | cons s rest ih =>
    intro st st2 h hi
    unfold runSites at h
    split at h
    · simp only [Except.ok.injEq] at h
      subst h
      exact hi
    · split at h
      · simp at h
      · rename_i st3 hstep
        exact ih st3 st2 h (scheduleSite_ok_budget hstep hi)

lemma scheduleSite_ok_serial {dist : ℚ × ℚ → ℚ × ℚ → ℚ} {vs vr : ℚ}
    {tw : ℤ} {t0 : ℚ} {st : SchedState} {site : Site} {st2 : SchedState}
    (hdist : ∀ p q, 0 ≤ dist p q) (hvs : 0 ≤ vs)
    (hsd : 0 ≤ site.depth_m) (hterr : 0 ≤ site.terrain_difficulty)
    (h : scheduleSite dist vs vr tw t0 st site = .ok st2)
    (hinv : SchedInv st) : SchedInv st2 := by
  obtain ⟨hrob, havail, hpw⟩ := hinv
  unfold scheduleSite at h
  dsimp only at h
  split at h
  · simp only [Except.ok.injEq] at h
    subst h
    exact ⟨hrob, havail, hpw⟩
  · rename_i rs best_score hpick
    split at h
    · simp only [Except.ok.injEq] at h
      subst h
      exact ⟨hrob, havail, hpw⟩
    · split at h
      · simp at h
      · rename_i transit htr
        split at h
        · simp at h
        · rename_i dur hdur
          split at h
          · simp only [Except.ok.injEq] at h
            subst h
            exact ⟨hrob, havail, hpw⟩
          · split at h
            · simp only [Except.ok.injEq] at h
              subst h
              exact ⟨hrob, havail, hpw⟩
            · rename_i hcost htime
              simp only [Except.ok.injEq] at h
              subst h
              have hrsmem : rs ∈ st.scheds := by
                rcases pickBest_mem site st.scheds (none, -1) rs best_score
                    hpick with hm | ha
                · exact hm
                · simp at ha
              have htransit : 0 ≤ transit :=
                transit_nonneg (hdist _ _) hvs htr
              have hdur0 : 0 ≤ dur :=
                duration_ok_nonneg hsd hterr (hrob rs hrsmem).1
                  (hrob rs hrsmem).2 hdur
              refine ⟨?_, ?_, ?_⟩
              · intro rs2 hmem
                dsimp only at hmem
                obtain ⟨rs0, h0, hrobeq, _⟩ := updateSched_mem hmem
                rw [hrobeq]
                exact hrob rs0 h0
              · intro rs2 hmem m2 hm2 hid2
                dsimp only at hmem hm2
                obtain ⟨rs0, h0, hrobeq, hcase⟩ := updateSched_mem hmem
                rcases List.mem_append.mp hm2 with hold | hnew
                · rcases hcase with ⟨hid0, hnf⟩ | ⟨hid0, hrs⟩
                  · have hend : m2.end_date ≤ rs.available_from :=
                      havail rs hrsmem m2 hold
                        (by rw [hid2, hrobeq, hid0])
                    rw [hnf]
                    linarith
                  · rw [hrs]
                    exact havail rs0 h0 m2 hold (by rw [hid2, hrobeq])
                · have hm2eq : m2 =
                      { mission_num := st.missions.length + 1
                        site_id := site.site_id
                        robot_id := rs.robot.robot_id
                        start_date := rs.available_from
                        end_date := rs.available_from + (transit + dur)
                        transit_hours := pyRound transit 1
                        survey_hours := pyRound dur 1
                        total_hours := pyRound (transit + dur) 1
                        cost_usd := pyRound
                          (calculate_mission_cost rs.robot dur transit vr) 2
                        compatibility_score := best_score } :=
                    List.mem_singleton.mp hnew
                  subst hm2eq
                  rcases hcase with ⟨hid0, hnf⟩ | ⟨hid0, hrs⟩
                  · rw [hnf]
                  · exfalso
                    apply hid0
                    dsimp only at hid2
                    rw [← hrobeq, ← hid2]
              · dsimp only
                refine List.pairwise_append.mpr
                  ⟨hpw, List.pairwise_singleton _ _, ?_⟩
                intro a ha m2 hm2
                have hm2eq : m2 = _ := List.mem_singleton.mp hm2
                subst hm2eq
                intro hid
                dsimp only at hid
                dsimp only
                exact havail rs hrsmem a ha hid

lemma runSites_ok_serial {dist : ℚ × ℚ → ℚ × ℚ → ℚ} {vs vr : ℚ} {tw : ℤ}
    {t0 : ℚ} (hdist : ∀ p q, 0 ≤ dist p q) (hvs : 0 ≤ vs) :
    ∀ (sites : List Site) (st st2 : SchedState),
      (∀ s ∈ sites, 0 ≤ s.depth_m ∧ 0 ≤ s.terrain_difficulty) →
      runSites dist vs vr tw t0 sites st = .ok st2 →
      SchedInv st → SchedInv st2 := by
  intro sites
  induction sites with
  | nil =>
    intro st st2 _ h hi
    unfold runSites at h
    simp only [Except.ok.injEq] at h
    subst h
    exact hi
  | cons s rest ih =>
    intro st st2 hs h hi
    unfold runSites at h
    split at h
    · simp only [Except.ok.injEq] at h
      subst h
      exact hi
    · split at h
      · simp at h
      · rename_i st3 hstep
        exact ih st3 st2 (fun x hx => hs x (List.mem_cons_of_mem _ hx)) h
          (scheduleSite_ok_serial hdist hvs (hs s (List.mem_cons_self _ _)).1
            (hs s (List.mem_cons_self _ _)).2 hstep hi)

lemma computeStats_ok_fields {n : ℕ} {b : ℚ} {st : SchedState}
    {stats : SchedStats} (h : computeStats n b st = .ok stats) :
    stats.total_cost_usd = pyRound (b - st.remaining) 2 := by
  unfold computeStats at h
  dsimp only at h
  split at h
  · simp at h
  · split at h
    · simp at h
    · simp only [Except.ok.injEq] at h
      subst h
      rfl

lemma greedy_ok_cases {dist : ℚ × ℚ → ℚ × ℚ → ℚ} {robots : List Robot}
    {sites : List Site} {t0 : ℚ} {tw : ℤ} {b vs vr : ℚ} {pb : String}
    {res : SchedResult}
    (h : greedy_mission_scheduler dist robots sites t0 tw b vs vr pb = .ok res) :
    ∃ final : SchedState,
      runSites dist vs vr tw t0
        (List.insertionSort (fun x y => siteKey pb y ≤ siteKey pb x) sites)
        { missions := [], remaining := b
          scheds := (dedupById
              (robots.filter (fun r => r.status == "Available")) []).map
            (fun r => { robot := r, available_from := t0, missions := [] }) }
        = .ok final ∧
      computeStats sites.length b final = .ok res.statistics ∧
      res.missions = final.missions := by
  unfold greedy_mission_scheduler at h
  dsimp only at h
  split at h
  · simp at h
  · split at h
    · simp at h
    · split at h
      · simp at h
      · rename_i final hrun
        split at h
        · simp at h
        · rename_i stats hstats
          simp only [Except.ok.injEq] at h
          subst h
          exact ⟨final, hrun, hstats, rfl⟩

lemma schedRunR_eq : schedRunR = .ok schedResR := by
  norm_num +decide [schedRunR, greedy_mission_scheduler, runSites, scheduleSite,
    pickBest, updateSched, computeStats, pyDiv, pyRound, round_eq,
    calculate_mission_duration, calculate_mission_cost,
    calculate_compatibility_score_simple, BASELINE_SENSORS, dedupById,
    siteKey, distZero, robotR, robotsR, siteC, siteD, sitesR, min_def,
    List.insertionSort, List.orderedInsert, List.filter, List.dedup,
    List.pwFilter, List.contains, schedResR]

/-- Claim C1 (counterexample): the scheduler is also defined for a negative
budget; the run below (budget −$1, one Available robot, one site) breaks
out of the loop immediately and returns a normal result whose mission-cost
sum (0, over the empty mission list) exceeds the budget, so the claimed
inequality fails as stated for arbitrary budgets. -/
theorem claim_C1_counterexample :
    greedy_mission_scheduler distZero [robotR] [siteC] 0 180 (-1) 12 75000
      "score" = .ok schedResNeg ∧
    ¬ ((schedResNeg.missions.map (fun m => m.cost_usd)).sum ≤ (-1 : ℚ)) := by
  constructor
  · norm_num +decide [greedy_mission_scheduler, runSites, computeStats, pyDiv,
      pyRound, round_eq, dedupById, siteKey, distZero, robotR, siteC,
      BASELINE_SENSORS, schedResNeg, emptyStats, List.insertionSort,
      List.orderedInsert, List.filter, List.dedup, List.pwFilter]
  · norm_num [schedResNeg, emptyStats]

/-- Claim C1 (amended): for every run started with a nonnegative budget, the
unrounded committed costs never exceed the budget — equivalently the
statistics' total cost is at most the (cent-rounded) budget — and the sum of
the missions' cent-rounded `cost_usd` fields exceeds the budget by at most
half a cent per mission. -/
theorem claim_C1_amended (dist : ℚ × ℚ → ℚ × ℚ → ℚ) (robots : List Robot)
    (sites : List Site) (t0 : ℚ) (tw : ℤ) (budget vs vr : ℚ) (pb : String)
    (res : SchedResult)
    (hok : greedy_mission_scheduler dist robots sites t0 tw budget vs vr pb
      = .ok res) (hb : 0 ≤ budget) :
    (res.missions.map (fun m => m.cost_usd)).sum ≤
      budget + (res.missions.length : ℚ) / 200 ∧
    res.statistics.total_cost_usd ≤ pyRound budget 2 := by
  obtain ⟨final, hrun, hstats, hmiss⟩ := greedy_ok_cases hok
  have hinit : BudgetInv budget
      { missions := [], remaining := budget
        scheds := (dedupById
            (robots.filter (fun r => r.status == "Available")) []).map
          (fun r => { robot := r, available_from := t0, missions := [] }) } := by
    constructor
    · exact hb
    · simp
  have hfin := runSites_ok_budget _ _ _ hrun hinit
  obtain ⟨hrem, hsum⟩ := hfin
  constructor
  · rw [hmiss]
    linarith
  · rw [computeStats_ok_fields hstats]
    exact pyRound_mono 2 (by linarith)

/-- Claim C1 (witness): the amended bound instantiated on the concrete
two-mission run (budget $100,000, committed cost $10,000). -/
theorem claim_C1_witness :
    (schedResR.missions.map (fun m => m.cost_usd)).sum ≤
      100000 + (schedResR.missions.length : ℚ) / 200 ∧
    schedResR.statistics.total_cost_usd ≤ pyRound 100000 2 :=
  claim_C1_amended distZero robotsR sitesR 0 180 100000 12 0 "score"
    schedResR schedRunR_eq (by norm_num)

/-- Claim C2: in any normal scheduler run over well-formed inputs
(nonnegative geodesic distances, vessel speed, robot endurance and speed,
site depth and terrain), the missions committed to any one robot are
chronologically serialized: each one ends no later than the next starts, so
the intervals [start_date, end_date) are pairwise non-overlapping. -/
theorem claim_C2 (dist : ℚ × ℚ → ℚ × ℚ → ℚ) (robots : List Robot)
    (sites : List Site) (t0 : ℚ) (tw : ℤ) (budget vs vr : ℚ) (pb : String)
    (res : SchedResult) (rid : String)
    (hok : greedy_mission_scheduler dist robots sites t0 tw budget vs vr pb
      = .ok res)
    (hdist : ∀ p q, 0 ≤ dist p q) (hvs : 0 ≤ vs)
    (hrob : ∀ r ∈ robots, 0 ≤ r.endurance_hours ∧ 0 ≤ r.speed_knots)
    (hsites : ∀ s ∈ sites, 0 ≤ s.depth_m ∧ 0 ≤ s.terrain_difficulty) :
    (res.missions.filter (fun m => m.robot_id == rid)).Pairwise
      (fun m1 m2 => m1.end_date ≤ m2.start_date) := by
  obtain ⟨final, hrun, _, hmiss⟩ := greedy_ok_cases hok
  have hinit : SchedInv
      { missions := [], remaining := budget
        scheds := (dedupById
            (robots.filter (fun r => r.status == "Available")) []).map
          (fun r => { robot := r, available_from := t0, missions := [] }) } := by
    refine ⟨?_, ?_, ?_⟩
    · intro rs hmem
      rcases List.mem_map.mp hmem with ⟨r, hr, heq⟩
      have hr2 : r ∈ robots :=
        (List.mem_filter.mp (dedupById_subset _ _ _ hr)).1
      rw [← heq]
      exact hrob r hr2
    · intro rs _ m hm
      exact absurd hm (List.not_mem_nil m)
    · exact List.Pairwise.nil
  have hfin := runSites_ok_serial hdist hvs _ _ _
    (fun s hs => hsites s ((List.mem_insertionSort _).mp hs)) hrun hinit
  rw [hmiss]
  have hpw2 := List.Pairwise.sublist
    (@List.filter_sublist _ (fun m => m.robot_id == rid) final.missions)
    hfin.2.2
  refine List.Pairwise.imp_of_mem (fun {a} {b} ha hb hr => ?_) hpw2
  have ha2 : a.robot_id = rid := eq_of_beq (List.mem_filter.mp ha).2
  have hb2 : b.robot_id = rid := eq_of_beq (List.mem_filter.mp hb).2
  exact hr (ha2.trans hb2.symm)

/-- Claim C2 (witness): the serialization property on the concrete run, in
which robot R1 receives two missions, [0h, 8h) then [8h, 16h). -/
theorem claim_C2_witness :
    (schedResR.missions.filter (fun m => m.robot_id == "R1")).Pairwise
      (fun m1 m2 => m1.end_date ≤ m2.start_date) :=
  claim_C2 distZero robotsR sitesR 0 180 100000 12 0 "score" schedResR "R1"
    schedRunR_eq (fun p q => le_refl 0) (by norm_num)
    (by
      intro r hr
      simp only [robotsR, List.mem_singleton] at hr
      subst hr
      exact ⟨by norm_num [robotR], by norm_num [robotR]⟩)
    (by
      intro s hs
      simp only [sitesR, List.mem_cons, List.mem_singleton,
        List.not_mem_nil, or_false] at hs
      rcases hs with rfl | rfl
      · exact ⟨by norm_num [siteC], by norm_num [siteC]⟩
      · exact ⟨by norm_num [siteD], by norm_num [siteD]⟩)

/-- Claim C3: with budget_usd = 0 and a non-empty site list the scheduler
does not return the claimed zero-mission result; computing
`budget_utilization_percent` divides the total cost by the zero budget and
Python raises ZeroDivisionError. -/
theorem claim_C3_zero_budget :
    greedy_mission_scheduler distZero [robotR] [siteC] 0 180 0 12 75000
      "score" = .error .zeroDivision := by
  rfl

/-- Claim C4 (counterexample): an all-zero weight dictionary is truthy in
Python, so no default fallback happens; `_validate_weights` sees total 0 and
construction raises ValueError instead of succeeding with 1/7 weights. -/
theorem claim_C4_counterexample :
    SPE_init (some zeroWeights) = .error .valueError := by
  norm_num [SPE_init, zeroWeights, Weights.total]

/-- Claim C4 (amended): engine construction with the all-zero weight set
fails with ValueError; the equal-weights 1/7 fallback lives in the UI layer
(app.py), which pre-normalizes raw weights before construction — all-zero
raw weights become 1/7 each there, after which construction succeeds. -/
theorem claim_C4_amended :
    SPE_init (some zeroWeights) = .error .valueError ∧
    app_normalize_weights zeroWeights = equalWeights ∧
    SPE_init (some (app_normalize_weights zeroWeights)) = .ok equalWeights := by
  have h2 : app_normalize_weights zeroWeights = equalWeights := by
    norm_num [app_normalize_weights, zeroWeights, Weights.total, equalWeights]
  refine ⟨?_, h2, ?_⟩
  · norm_num [SPE_init, zeroWeights, Weights.total]
  · rw [h2, SPE_init_eq, if_pos]
    norm_num [equalWeights, Weights.total]

/-- Claim C5 (counterexample): a weight set summing to 1.010005 is outside
the claimed ±0.01 tolerance, yet construction succeeds, because np.isclose
adds its default relative tolerance 1e-5 on top of atol = 0.01. -/
theorem claim_C5_counterexample :
    SPE_init (some wC5) = .ok wC5 ∧ ¬ (|wC5.total - 1| ≤ 1 / 100) := by
  constructor
  · rw [SPE_init_eq, if_pos]
    norm_num [wC5, Weights.total, abs_of_nonneg]
  · norm_num [wC5, Weights.total, abs_of_nonneg]

/-- Claim C5 (amended): construction succeeds exactly when the weight total
is within 0.01 + 1e-5 (np.isclose's atol plus its default rtol) of 1.0,
storing the supplied weights unchanged (no renormalization); otherwise it
fails with ValueError before any scoring. -/
theorem claim_C5_amended (w : Weights) :
    SPE_init (some w) =
      if |w.total - 1| ≤ 1001 / 100000 then .ok w else .error .valueError :=
  SPE_init_eq w

/-- Claim C6 (counterexample): the all-(101/700) weight vector sums to 1.01,
inside the claimed ±0.01 tolerance, yet a site that is best on all seven
criteria receives composite score 101 > 100. -/
theorem claim_C6_counterexample :
    |wC6.total - 1| ≤ 1 / 100 ∧
    (score_sites wC6 [siteA, siteB]).map (fun ss => ss.composite_score)
      = [101, 0] ∧
    ¬ ((101 : ℚ) ≤ 100) := by
  refine ⟨by norm_num [wC6, Weights.total, abs_of_nonneg], ?_, by norm_num⟩
  norm_num [score_sites, scoreSite, compositeRaw, mineralScore, depthScore,
    distanceScore, environmentalScore, valueScore, terrainScore, qualityScore,
    normalize_score, colMin, colMax, pyRound, round_eq, wC6, siteA, siteB,
    List.insertionSort, List.orderedInsert]

/-- Claim C6 (amended): for every weight vector with nonnegative entries
summing to at most 1, every site's composite score after `score_sites` lies
in [0, 100] (weight totals above 1, which the ±0.01 validator admits, scale
the upper bound to 100 × total). -/
theorem claim_C6_amended (w : Weights) (sites : List Site)
    (hw : 0 ≤ w.mineral_concentration ∧ 0 ≤ w.depth ∧
      0 ≤ w.distance_from_port ∧ 0 ≤ w.environmental_sensitivity ∧
      0 ≤ w.estimated_value ∧ 0 ≤ w.terrain_difficulty ∧
      0 ≤ w.survey_data_quality)
    (htot : w.total ≤ 1) (ss : ScoredSite)
    (hss : ss ∈ score_sites w sites) :
    0 ≤ ss.composite_score ∧ ss.composite_score ≤ 100 := by
  obtain ⟨hw1, hw2, hw3, hw4, hw5, hw6, hw7⟩ := hw
  rw [score_sites] at hss
  have hss2 := (List.mem_insertionSort _).mp hss
  rcases List.mem_map.mp hss2 with ⟨s, hsmem, heq⟩
  subst heq
  have h1 := mineralScore_bounds (l := sites) hsmem
  have h2 := depthScore_bounds (l := sites) hsmem
  have h3 := distanceScore_bounds (l := sites) hsmem
  have h4 := environmentalScore_bounds (l := sites) hsmem
  have h5 := valueScore_bounds (l := sites) hsmem
  have h6 := terrainScore_bounds (l := sites) hsmem
  have h7 := qualityScore_bounds (l := sites) hsmem
  have hcomp0 : 0 ≤ compositeRaw w sites s := by
    unfold compositeRaw
    have t1 := mul_nonneg h1.1 hw1
    have t2 := mul_nonneg h2.1 hw2
    have t3 := mul_nonneg h3.1 hw3
    have t4 := mul_nonneg h4.1 hw4
    have t5 := mul_nonneg h5.1 hw5
    have t6 := mul_nonneg h6.1 hw6
    have t7 := mul_nonneg h7.1 hw7
    linarith
  have hcomp100 : compositeRaw w sites s ≤ 100 := by
    unfold compositeRaw
    have u1 := mul_le_mul_of_nonneg_right h1.2 hw1
    have u2 := mul_le_mul_of_nonneg_right h2.2 hw2
    have u3 := mul_le_mul_of_nonneg_right h3.2 hw3
    have u4 := mul_le_mul_of_nonneg_right h4.2 hw4
    have u5 := mul_le_mul_of_nonneg_right h5.2 hw5
    have u6 := mul_le_mul_of_nonneg_right h6.2 hw6
    have u7 := mul_le_mul_of_nonneg_right h7.2 hw7
    have ht := htot
    unfold Weights.total at ht
    linarith
  constructor
  · have h0 := pyRound_mono 2 hcomp0
    rw [pyRound_zero] at h0
    simpa [scoreSite] using h0
  · have h100 := pyRound_mono 2 hcomp100
    rw [pyRound_hundred] at h100
    simpa [scoreSite] using h100

/-- Claim C6 (witness): the amended bound instantiated with the default
weights (summing to exactly 1) and the two-site population. -/
theorem claim_C6_witness :
    0 ≤ (scoreSite DEFAULT_WEIGHTS [siteA, siteB] siteA).composite_score ∧
    (scoreSite DEFAULT_WEIGHTS [siteA, siteB] siteA).composite_score ≤ 100 :=
  claim_C6_amended DEFAULT_WEIGHTS [siteA, siteB]
    (by norm_num [DEFAULT_WEIGHTS])
    (by norm_num [DEFAULT_WEIGHTS, Weights.total])
    (scoreSite DEFAULT_WEIGHTS [siteA, siteB] siteA)
    (by
      rw [score_sites]
      exact (List.mem_insertionSort _).mpr
        (List.mem_map_of_mem _ (List.mem_cons_self _ _)))

/-- Claim C7: normalize_score maps the population minimum to 0 and the
population maximum to 100 on a direct scale with min < max, and returns the
neutral 50 for every input when the range is degenerate (min = max),
without error. -/
theorem claim_C7 (x m M : ℚ) (inv : Bool) :
    (m < M →
      normalize_score m m M false = 0 ∧ normalize_score M m M false = 100) ∧
    normalize_score x m m inv = 50 := by
  constructor
  · intro h
    have hne : M ≠ m := h.ne'
    have hMm : M - m ≠ 0 := sub_ne_zero.mpr hne
    constructor
    · simp [normalize_score, hne]
    · simp [normalize_score, hne, div_self hMm]
  · simp [normalize_score]

/-- Claim C7 (witness): concrete instances of both halves. -/
theorem claim_C7_witness :
    (normalize_score 0 0 1 false = 0 ∧ normalize_score 1 0 1 false = 100) ∧
    normalize_score 5 3 3 true = 50 :=
  ⟨(claim_C7 0 0 1 false).1 (by norm_num), (claim_C7 5 3 3 true).2⟩

lemma depthCredit_mono (robot : Robot) {site : Site} (hd : 0 < site.depth_m)
    {d1 d2 : ℚ} (h12 : d1 ≤ d2) :
    depthCredit { robot with max_depth_m := d1 } site ≤
      depthCredit { robot with max_depth_m := d2 } site := by
  unfold depthCredit check_depth_compatibility
  dsimp only
  simp only [decide_eq_true_eq]
  split_ifs with hA hB hC
  · exact le_refl 40
  · exfalso
    apply hB
    nlinarith
  · exact min_le_left _ _
  · refine min_le_min (le_refl 40) ?_
    have hdiv : d1 / site.depth_m ≤ d2 / site.depth_m :=
      (div_le_div_right hd).mpr h12
    exact mul_le_mul_of_nonneg_right hdiv (by norm_num)

lemma depthCredit_full (robot : Robot) {site : Site} {d : ℚ}
    (hth : site.depth_m / (9 / 10) ≤ d) :
    depthCredit { robot with max_depth_m := d } site = 40 := by
  unfold depthCredit check_depth_compatibility
  dsimp only
  simp only [decide_eq_true_eq]
  have h2 : site.depth_m ≤ d * (9 / 10) :=
    (div_le_iff (by norm_num : (0 : ℚ) < 9 / 10)).mp hth
  rw [if_pos h2]

/-- Claim C8: for a site of positive depth and all other robot fields
fixed, the detailed compatibility score is monotonically non-decreasing in
the robot's `max_depth_m`; once `max_depth_m` reaches depth / 0.9 the depth
facet contributes its full 40 points and the score equals its value at that
threshold (further increases change nothing). -/
theorem claim_C8 (robot : Robot) (site : Site) (d1 d2 : ℚ)
    (hd : 0 < site.depth_m) (h12 : d1 ≤ d2) :
    calculate_compatibility_score { robot with max_depth_m := d1 } site ≤
      calculate_compatibility_score { robot with max_depth_m := d2 } site ∧
    (site.depth_m / (9 / 10) ≤ d2 →
      depthCredit { robot with max_depth_m := d2 } site = 40 ∧
      calculate_compatibility_score { robot with max_depth_m := d2 } site =
        calculate_compatibility_score
          { robot with max_depth_m := site.depth_m / (9 / 10) } site) := by
  constructor
  · unfold calculate_compatibility_score
    apply pyRound_mono
    have hmono := depthCredit_mono robot hd h12
    have hs : sensorCredit { robot with max_depth_m := d1 } site =
        sensorCredit { robot with max_depth_m := d2 } site := rfl
    have hst : statusCredit { robot with max_depth_m := d1 } =
        statusCredit { robot with max_depth_m := d2 } := rfl
    rw [hs, hst]
    linarith
  · intro hth
    have h40 := depthCredit_full robot hth
    have h40T := depthCredit_full robot
      (le_refl (site.depth_m / (9 / 10)))
    refine ⟨h40, ?_⟩
    unfold calculate_compatibility_score
    rw [h40, h40T]
    rfl

/-- Claim C8 (witness): robot RW against the 1000 m site, max depth raised
from 500 m to 2000 m; the threshold 1000 / 0.9 ≈ 1111 m is crossed. -/
theorem claim_C8_witness :
    calculate_compatibility_score { robotW with max_depth_m := 500 } siteB ≤
      calculate_compatibility_score { robotW with max_depth_m := 2000 } siteB ∧
    depthCredit { robotW with max_depth_m := 2000 } siteB = 40 ∧
    calculate_compatibility_score { robotW with max_depth_m := 2000 } siteB =
      calculate_compatibility_score
        { robotW with max_depth_m := siteB.depth_m / (9 / 10) } siteB := by
  have h := claim_C8 robotW siteB 500 2000 (by norm_num [siteB]) (by norm_num)
  exact ⟨h.1, h.2 (by norm_num [siteB])⟩

/-- Claim C9 (counterexample): querying detailed compatibility with an
absent robot identifier raises the generic pandas IndexError from the empty
`.iloc[0]` selection — not a dedicated not-found signal distinct from a
computation error. -/
theorem claim_C9_counterexample :
    get_detailed_compatibility [robotW] [siteB] "NOPE" "S2"
      = .error .indexError ∧
    PyErr.indexError ≠ PyErr.notFound := by
  constructor
  · rfl
  · decide

/-- Claim C9 (amended): on non-empty collections an absent robot_id or
site_id makes get_detailed_compatibility fail with the same generic
IndexError in either case (the robot lookup is attempted first); on an
empty robot collection the column access itself raises KeyError instead.
Neither path is a distinct not-found signal. -/
theorem claim_C9_amended (robots : List Robot) (sites : List Site)
    (rid sid : String) :
    (robots ≠ [] → robots.find? (fun r => r.robot_id == rid) = none →
      get_detailed_compatibility robots sites rid sid = .error .indexError) ∧
    (robots ≠ [] → sites ≠ [] →
      sites.find? (fun s => s.site_id == sid) = none →
      get_detailed_compatibility robots sites rid sid = .error .indexError) ∧
    (robots = [] →
      get_detailed_compatibility robots sites rid sid = .error .keyError) := by
  refine ⟨?_, ?_, ?_⟩
  · intro hner h
    cases robots with
    | nil => exact absurd rfl hner
    | cons r rest =>
      unfold get_detailed_compatibility
      rw [h]
      rfl
  · intro hner hnes h
    cases robots with
    | nil => exact absurd rfl hner
    | cons r rest =>
      unfold get_detailed_compatibility
      dsimp only
      cases hr : (r :: rest).find? (fun x => x.robot_id == rid) with
      | none => rfl
      | some rob =>
        cases sites with
        | nil => exact absurd rfl hnes
        | cons s rest2 =>
          dsimp only
          rw [h]
          rfl
  · intro he
    subst he
    rfl

/-- Claim C9 (witness): the amended behavior at a concrete absent
robot identifier, with non-empty collections. -/
theorem claim_C9_witness :
    get_detailed_compatibility [robotW] [siteB] "GHOST" "NOSITE"
      = .error .indexError :=
  (claim_C9_amended [robotW] [siteB] "GHOST" "NOSITE").1
    (List.cons_ne_nil _ _) (by rfl)

/-- Claim C10 (counterexample): with an empty site list the scheduler does
fail, but with KeyError — `sort_values` on the no-column frame of the empty
site list (optimizer.py lines 157-164) raises before the loop and the
statistics — not with the division-by-zero the claim asserts; the
coverage_percent division never executes. -/
theorem claim_C10_counterexample :
    greedy_mission_scheduler distZero [robotR] [] 0 180 100000 12 75000
      "score" = .error .keyError ∧
    PyErr.keyError ≠ PyErr.zeroDivision := by
  constructor
  · rfl
  · decide

/-- Claim C10 (amended): every call with an empty site list — regardless of
budget, robots, or the other parameters — raises instead of returning a
result object, but the error is a KeyError from the column access in
`sort_values` (or, when the roster is also empty, from the earlier 'status'
column access at optimizer.py lines 146-148); the coverage_percent division
by zero is never reached. -/
theorem claim_C10_amended (dist : ℚ × ℚ → ℚ × ℚ → ℚ) (robots : List Robot)
    (t0 : ℚ) (tw : ℤ) (budget vs vr : ℚ) (pb : String) :
    greedy_mission_scheduler dist robots [] t0 tw budget vs vr pb
      = .error .keyError := by
  cases robots with
  | nil => rfl
  | cons r rest => rfl
